import Mathlib

/-!
Shallow embedding of the `vendor_notification` NetBox plugin
(`src/vendor_notification/{models,forms,views,choices,timeline_utils}.py`)
and proofs of the specification claims about it.

Conventions:
* Python `datetime` values are modelled as a wall-clock instant in minutes
  together with an optional UTC offset (`none` = naive datetime).
* IANA timezone lookup (`zoneinfo.ZoneInfo`) is modelled as an abstract
  function `String → Option Int` giving the UTC offset, in minutes, in
  effect at the relevant instant; theorems quantify over it.
* Django `ValidationError` / Python `ValueError` are modelled with `Except`.
* Django querysets are modelled as `List` values filtered explicitly.
-/

namespace VendorNotification

/-! ## Python string primitives

ASCII models of `str.lower()`, `str.upper()`, `str.strip()` and
`str.split(",")`, written over character lists so that they evaluate by
kernel reduction. -/

/-- Whitespace characters stripped by Python `str.strip()` and `int()`. -/
def isPySpace (c : Char) : Bool :=
  c = ' ' || c = '\t' || c = '\n' || c = '\x0d' || c = '\x0b' || c = '\x0c'

/-- Python `str.lower()` (ASCII). -/
def pyLower (s : String) : String := String.mk (s.toList.map Char.toLower)

/-- Python `str.upper()` (ASCII). -/
def pyUpper (s : String) : String := String.mk (s.toList.map Char.toUpper)

/-- Python `str.strip()`. -/
def pyStrip (s : String) : String :=
  String.mk (((s.toList.dropWhile isPySpace).reverse.dropWhile isPySpace).reverse)

/-- Split a character list at every occurrence of `sep`, keeping empty
pieces, as Python `str.split(sep)` does for a one-character separator. -/
def splitChar (sep : Char) : List Char → List (List Char)
  | [] => [[]]
  | c :: rest =>
      let r := splitChar sep rest
      if c = sep then [] :: r
      else
        match r with
        | [] => [[c]]
        | h :: t => (c :: h) :: t

/-- Python `s.split(",")`. -/
def pySplitComma (s : String) : List String :=
  (splitChar ',' s.toList).map String.mk

/-! ## Choice sets (`choices.py`) -/

/-- The status values of `MaintenanceTypeChoices.CHOICES` (first component of
each triple), as read by `MaintenanceICalView._build_queryset`. -/
def MaintenanceTypeChoices.valid : List String :=
  ["TENTATIVE", "CONFIRMED", "CANCELLED", "IN-PROCESS", "COMPLETED",
   "RE-SCHEDULED", "UNKNOWN"]

/-- The status values of `OutageStatusChoices.CHOICES`. -/
def OutageStatusChoices.valid : List String :=
  ["REPORTED", "INVESTIGATING", "IDENTIFIED", "MONITORING", "RESOLVED"]

/-! ## Python datetimes -/

/-- A Python `datetime`: a wall-clock reading (in minutes) plus an optional
fixed UTC offset in minutes (`none` models a naive datetime). -/
structure PyDateTime where
  wall : Int
  tzOffset : Option Int
deriving Repr, DecidableEq

/-- Python `d.replace(tzinfo=tz)`: reattach a timezone without moving the wall
clock.  Works identically on naive and aware datetimes, exactly as both
branches of the Python `if timezone.is_naive(...)` do. -/
def PyDateTime.replaceTz (d : PyDateTime) (off : Int) : PyDateTime :=
  ⟨d.wall, some off⟩

/-- Python `d.astimezone(target)` for an aware datetime: keep the instant, move the
wall clock.  The naive branch is unreachable at every call site in
`forms.py` (the code always calls `replace` first); Python there would
assume the platform-local zone, which we model as the target zone. -/
def PyDateTime.astimezone (d : PyDateTime) (target : Int) : PyDateTime :=
  match d.tzOffset with
  | some src => ⟨d.wall - src + target, some target⟩
  | none => ⟨d.wall, some target⟩

/-- Timezone environment for the form-save logic: the `zoneinfo` database
(offset of each named zone at the relevant instant, `none` when
`ZoneInfoNotFoundError`/`ValueError` would be raised) and the offset of
`timezone.get_current_timezone()`. -/
structure TzEnv where
  zoneInfo : String → Option Int
  systemOffset : Int

/-! ## Models (`models.py`) -/

/-- The fields of a `Maintenance` instance relevant to form saving.
`pk = none` models an instance with no prior identity (creation). -/
structure MaintenanceInstance where
  pk : Option Nat
  start : PyDateTime
  «end» : PyDateTime
  original_timezone : String
  status : String
deriving Repr, DecidableEq

/-- The fields of an `Outage` instance relevant to form saving and to
`Outage.clean`.  `end` and `estimated_time_to_repair` are nullable. -/
structure OutageInstance where
  pk : Option Nat
  start : PyDateTime
  «end» : Option PyDateTime
  estimated_time_to_repair : Option PyDateTime
  original_timezone : String
  status : String
deriving Repr, DecidableEq

/-- A Django `ValidationError`, optionally attached to a field. -/
structure ValidationErr where
  field : Option String
  msg : String
deriving Repr, DecidableEq

/-- Model of `Outage.clean` (`models.py` lines 351–357): end time is required when the
status is RESOLVED.  A present `end` datetime is always truthy in Python,
so `not self.end` is exactly `end = none`. -/
def OutageInstance.clean (o : OutageInstance) : Except ValidationErr Unit :=
  if o.status = "RESOLVED" ∧ o.«end» = none then
    .error ⟨some "end", "End time is required when marking outage as resolved"⟩
  else .ok ()

/-- A Django `ContentType` row: app label and lower-cased model name. -/
structure ContentTypeRef where
  app_label : String
  model : String
deriving Repr, DecidableEq

/-- The parent event an `Impact` points at through its generic foreign key,
as far as `Impact.clean` inspects it: both `Maintenance` and `Outage` have a
`status` attribute, so `hasattr(self.event, "status")` holds exactly when
the reference resolves. -/
structure EventObj where
  status : String
deriving Repr, DecidableEq

/-- The fields of an `Impact` instance relevant to `Impact.clean`.
`event` is the resolved generic foreign key (`none` when unresolvable). -/
structure Impact where
  event_content_type : Option ContentTypeRef
  event_object_id : Nat
  event : Option EventObj
  target_content_type : Option ContentTypeRef
  target_object_id : Nat
  impact : Option String
deriving Repr, DecidableEq

/-- First check of `Impact.clean` (`models.py` lines 433–445): the target
content type, when set, must be in the configured allow-list, compared
case-insensitively.  The allow-list (`get_allowed_content_types()`, whose
module is not among the sources) is passed in as an explicit argument. -/
def Impact.clean_target (i : Impact) (allowed_types : List String) :
    Except ValidationErr Unit :=
  match i.target_content_type with
  | none => .ok ()
  | some ct =>
      let type_string := ct.app_label ++ "." ++ ct.model
      if pyLower type_string ∈ allowed_types.map pyLower then .ok ()
      else
        let joined := String.intercalate ", " allowed_types
        .error ⟨some "target_content_type",
          s!"Content type {type_string} is not allowed. Allowed types: {joined}"⟩

/-- Second check of `Impact.clean` (`models.py` lines 448–456): the event
content type, when set, must be `vendor_notification.maintenance` or
`vendor_notification.outage`. -/
def Impact.clean_event_type (i : Impact) : Except ValidationErr Unit :=
  match i.event_content_type with
  | none => .ok ()
  | some ct =>
      if ct.app_label ≠ "vendor_notification" then
        .error ⟨some "event_content_type", "Event must be a Maintenance or Outage"⟩
      else if ct.model ∉ ["maintenance", "outage"] then
        .error ⟨some "event_content_type", "Event must be a Maintenance or Outage"⟩
      else .ok ()

/-- Third check of `Impact.clean` (`models.py` lines 459–463): impacts of a
completed, cancelled or resolved event cannot be altered. -/
def Impact.clean_event_status (i : Impact) : Except ValidationErr Unit :=
  match i.event with
  | none => .ok ()
  | some ev =>
      if ev.status ∈ ["COMPLETED", "CANCELLED", "RESOLVED"] then
        .error ⟨none, "You cannot alter an impact once the event has completed."⟩
      else .ok ()

/-- Model of `Impact.clean` (`models.py` lines 427–463): runs the three checks in
source order; the first raised `ValidationError` aborts the rest. -/
def Impact.clean (i : Impact) (allowed_types : List String) :
    Except ValidationErr Unit :=
  match i.clean_target allowed_types with
  | .error e => .error e
  | .ok _ =>
      match i.clean_event_type with
      | .error e => .error e
      | .ok _ => i.clean_event_status

/-! ## Forms (`forms.py`) -/

/-- Model of `MaintenanceForm.save` (`forms.py` lines 65–106), restricted to the
instance fields it touches.  Only on creation (`not instance.pk`) with a
non-empty `original_timezone` are `start` and `end` re-tagged with the
original timezone and converted to the system timezone; an unknown
timezone name degrades to a no-op; on edit nothing is converted. -/
def MaintenanceForm.save (env : TzEnv) (inst : MaintenanceInstance) :
    MaintenanceInstance :=
  if inst.pk = none ∧ inst.original_timezone ≠ "" then
    match env.zoneInfo inst.original_timezone with
    | none => inst
    | some origOff =>
        { inst with
          start := (inst.start.replaceTz origOff).astimezone env.systemOffset,
          «end» := (inst.«end».replaceTz origOff).astimezone env.systemOffset }
  else inst

/-- Model of `OutageForm.save` (`forms.py` lines 400–452): same conversion as
`MaintenanceForm.save`, additionally converting the optional `end` and
`estimated_time_to_repair` fields when they are present. -/
def OutageForm.save (env : TzEnv) (inst : OutageInstance) : OutageInstance :=
  if inst.pk = none ∧ inst.original_timezone ≠ "" then
    match env.zoneInfo inst.original_timezone with
    | none => inst
    | some origOff =>
        { inst with
          start := (inst.start.replaceTz origOff).astimezone env.systemOffset,
          «end» := inst.«end».map
            (fun d => (d.replaceTz origOff).astimezone env.systemOffset),
          estimated_time_to_repair := inst.estimated_time_to_repair.map
            (fun d => (d.replaceTz origOff).astimezone env.systemOffset) }
  else inst

/-! ## Python `int()` on strings -/

/-- Digit run with Python-3.6 underscore grouping: underscores are legal only
between two digits.  `lastDigit` records whether the previous character was
a digit; the run must end on a digit. -/
def pyDigitsAux (acc : Nat) (lastDigit : Bool) : List Char → Option Nat
  | [] => if lastDigit then some acc else none
  | c :: rest =>
      if c.isDigit then pyDigitsAux (10 * acc + (c.toNat - 48)) true rest
      else if c = '_' && lastDigit then pyDigitsAux acc false rest
      else none

/-- Python `int(s)` for a decimal string: surrounding whitespace is
stripped, then an optional sign and a non-empty digit run; `none` models
the `ValueError` raised on anything else. -/
def pyInt (s : String) : Option Int :=
  let cs := ((s.toList.dropWhile isPySpace).reverse.dropWhile isPySpace).reverse
  match cs with
  | '+' :: rest => (pyDigitsAux 0 false rest).map Int.ofNat
  | '-' :: rest => (pyDigitsAux 0 false rest).map (fun n => -(n : Int))
  | _ => (pyDigitsAux 0 false cs).map Int.ofNat

/-! ## iCal feed view (`views.py`, `MaintenanceICalView`) -/

/-- A user as the view observes it: `request.user` is an anonymous user
object (still truthy in Python) when `is_authenticated` is false. -/
structure User where
  id : Nat
  is_authenticated : Bool
  has_view_maintenance_perm : Bool
deriving Repr, DecidableEq

/-- One row of the `Maintenance` table as the feed query reads it.
Timestamps (`start`, `last_updated`) are instants in minutes. -/
structure MaintenanceRow where
  pk : Nat
  start : Int
  provider_id : Nat
  status : String
  last_updated : Int
deriving Repr, DecidableEq

/-- The inbound HTTP request, reduced to what `MaintenanceICalView` reads.
`header_auth` is the outcome of `TokenAuthentication().authenticate(request)`
on the Authorization header (`none` when the header is absent or yields no
user); `has_if_modified_since` records mere presence of the header, which is
all the code checks. -/
structure ICalRequest where
  token_param : Option String
  header_auth : Option User
  session_user : User
  if_none_match : Option String
  has_if_modified_since : Bool
  past_days_param : Option String
  provider_param : Option String
  provider_id_param : Option String
  status_param : Option String
deriving Repr, DecidableEq

/-- Server-side environment of the view: token table
(`TokenAuthentication().authenticate_credentials`, `none` for
`AuthenticationFailed`), `settings.LOGIN_REQUIRED`, the plugin
configuration values, the `Provider` table as (id, slug) pairs, the
`Maintenance` table, and the current time `timezone.now()` in minutes. -/
structure ICalEnv where
  validate_token : String → Option User
  login_required : Bool
  ical_past_days_default : Int
  ical_cache_max_age : Int
  providers : List (Nat × String)
  maintenances : List MaintenanceRow
  now : Int

/-- Fallback part of `MaintenanceICalView._authenticate_request`
(`views.py` lines 250–266), reached when no truthy `token` query parameter
is present: Authorization header (only consulted when the session user is
not authenticated), then session, then anonymous when `LOGIN_REQUIRED` is
disabled. -/
def authenticate_fallback (env : ICalEnv) (req : ICalRequest) : Option User :=
  if !req.session_user.is_authenticated && req.header_auth.isSome then
    req.header_auth
  else if req.session_user.is_authenticated then
    some req.session_user
  else if !env.login_required then
    some req.session_user
  else
    none

/-- Model of `MaintenanceICalView._authenticate_request` (`views.py` lines 234–266).
A truthy (non-empty) `token` query parameter short-circuits: its validation
result is returned directly, `AuthenticationFailed` becoming `none` with no
fallback.  An empty `token` value is falsy in Python and falls through. -/
def authenticate_request (env : ICalEnv) (req : ICalRequest) : Option User :=
  match req.token_param with
  | some t => if t = "" then authenticate_fallback env req else env.validate_token t
  | none => authenticate_fallback env req

/-- The normalized parameter set built by `_parse_query_params`. -/
structure ICalParams where
  past_days : Int
  provider : Option String
  provider_id : Option String
  status : Option String
deriving Repr, DecidableEq

/-- The `past_days` logic of `_parse_query_params` (`views.py` lines
272–286): `int()` failure falls back to the default; a negative value is
replaced by the default; a value above 365 raises `ValueError`, which the
same `except` clause converts to the default.  When the parameter is
absent, `int()` is applied to the integer default itself. -/
def effective_past_days (supplied : Option String) (default_past_days : Int) : Int :=
  match supplied with
  | none =>
      let pd := default_past_days
      let pd := if pd < 0 then default_past_days else pd
      if pd > 365 then default_past_days else pd
  | some s =>
      match pyInt s with
      | none => default_past_days
      | some n =>
          let pd := if n < 0 then default_past_days else n
          if pd > 365 then default_past_days else pd

/-- Model of `MaintenanceICalView._parse_query_params` (`views.py` lines 268–298).
`provider` takes precedence over `provider_id` (the `elif`); the function
cannot raise: every `ValueError`/`TypeError` in it is caught internally. -/
def parse_query_params (env : ICalEnv) (req : ICalRequest) : ICalParams :=
  { past_days := effective_past_days req.past_days_param env.ical_past_days_default,
    provider := req.provider_param,
    provider_id := if req.provider_param.isSome then none else req.provider_id_param,
    status := req.status_param }

/-- Python `s.strip().upper()` applied to each comma-separated status entry. -/
def strip_upper (s : String) : String := pyUpper (pyStrip s)

/-- First half of `MaintenanceICalView._build_queryset` (`views.py` lines
302–322): base filter `start ≥ now − past_days` (in minutes, one day
= 1440), then provider narrowing.  An unknown slug or an unparseable id
raises `ValueError`, modelled as `.error`; an unknown numeric id merely
filters to an empty set. -/
def provider_filtered (env : ICalEnv) (params : ICalParams) :
    Except String (List MaintenanceRow) :=
  let cutoff := env.now - params.past_days * 1440
  let qs := env.maintenances.filter (fun r => cutoff ≤ r.start)
  match params.provider with
  | some slug =>
      match env.providers.find? (fun p => p.2 = slug) with
      | some p => .ok (qs.filter (fun r => r.provider_id = p.1))
      | none => .error s!"Provider not found: {slug}"
  | none =>
      match params.provider_id with
      | some pid_str =>
          match pyInt pid_str with
          | some pid => .ok (qs.filter (fun r => (r.provider_id : Int) = pid))
          | none => .error s!"Invalid provider_id: {pid_str}"
      | none => .ok qs

/-- Model of `MaintenanceICalView._build_queryset` (`views.py` lines 300–336): the
provider-narrowed set further narrowed by the status filter, which is
skipped entirely when no supplied status survives validation. -/
def build_queryset (env : ICalEnv) (params : ICalParams) :
    Except String (List MaintenanceRow) :=
  match provider_filtered env params with
  | .error e => .error e
  | .ok qs =>
      match params.status with
      | some s =>
          let status_list := (pySplitComma s).map strip_upper
          let filtered_statuses :=
            status_list.filter (fun x => x ∈ MaintenanceTypeChoices.valid)
          if filtered_statuses ≠ [] then
            .ok (qs.filter (fun r => r.status ∈ filtered_statuses))
          else .ok qs
      | none => .ok qs

/-- Model of `queryset.order_by("-last_updated").values_list(...).first()`: the
greatest `last_updated` in the result set, `none` when it is empty. -/
def latest_last_updated (rows : List MaintenanceRow) : Option Int :=
  rows.foldl
    (fun acc r =>
      match acc with
      | none => some r.last_updated
      | some m => some (max m r.last_updated))
    none

/-- Modelled from the spec: `calculate_etag` is defined in `ical_utils.py`,
which is not among the provided sources (only its import in `views.py` is).
Per the spec it is a cache-validity tag computed from the result-set row
count, the latest last-modified timestamp, and the normalized parameter
set; we model it as a deterministic encoding of exactly those three
inputs. -/
def calculate_etag (count : Nat) (latest_modified : Option Int)
    (params : ICalParams) : String :=
  toString count ++ "|" ++ toString latest_modified ++ "|"
    ++ toString params.past_days ++ "|" ++ toString params.provider ++ "|"
    ++ toString params.provider_id ++ "|" ++ toString params.status

/-- Modelled from the spec: `generate_maintenance_ical` is defined in
`ical_utils.py`, which is not among the provided sources.  Per the spec it
renders the result set as calendar-feed content; we model it as a
deterministic rendering of the rows. -/
def generate_maintenance_ical (rows : List MaintenanceRow) : String :=
  String.intercalate "\n" (rows.map (fun r => toString r.pk))

/-- The response of `MaintenanceICalView.get`, keeping the headers the
claims talk about.  `unhandled_error` models an exception escaping the
handler (Django turns it into a server error, not a 400). -/
inductive ICalResponse where
  | forbidden (reason : String)
  | bad_request (reason : String)
  | not_modified (etag : String) (last_modified : Option Int)
  | okResp (body : String) (cache_control : String) (etag : String)
      (last_modified : Option Int)
  | unhandled_error (msg : String)
deriving Repr, DecidableEq

/-- Returns `true` exactly on the `bad_request` constructor. -/
def ICalResponse.is_bad_request : ICalResponse → Bool
  | .bad_request _ => true
  | _ => false

/-- Returns `true` exactly on the `forbidden` constructor. -/
def ICalResponse.is_forbidden : ICalResponse → Bool
  | .forbidden _ => true
  | _ => false

/-- Model of `MaintenanceICalView.get` (`views.py` lines 161–232).  Note that the
`try/except ValueError → 400` wraps only `_parse_query_params`, which never
raises; `_build_queryset` is called outside it, so its `ValueError`s escape
the handler (`unhandled_error`).  The anonymous user object returned on the
no-auth path is truthy, so `if not user` fires only on `None`. -/
def ical_get (env : ICalEnv) (req : ICalRequest) : ICalResponse :=
  match authenticate_request env req with
  | none => .forbidden "Authentication required"
  | some user =>
      if !user.has_view_maintenance_perm then .forbidden "Permission denied"
      else
        let params := parse_query_params env req
        match build_queryset env params with
        | .error msg => .unhandled_error msg
        | .ok rows =>
            let count := rows.length
            let latest := latest_last_updated rows
            let etag := calculate_etag count latest params
            if req.if_none_match = some etag then
              .not_modified etag none
            else if latest.isSome && req.has_if_modified_since then
              .not_modified etag latest
            else
              .okResp (generate_maintenance_ical rows)
                ("public, max-age=" ++ toString env.ical_cache_max_age)
                etag latest

/-! ## Timeline utility (`timeline_utils.py`) -/

/-- The `FIELD_DISPLAY_NAMES` lookup table. -/
def FIELD_DISPLAY_NAMES : List (String × String) :=
  [("name", "Event ID"), ("summary", "Summary"), ("status", "Status"),
   ("start", "Start Time"), ("end", "End Time"),
   ("estimated_time_to_repair", "Estimated Time to Repair"),
   ("acknowledged", "Acknowledged"), ("internal_ticket", "Internal Ticket"),
   ("comments", "Comments"), ("original_timezone", "Original Timezone"),
   ("provider", "Provider"), ("impact", "Impact Level")]

/-- Python `str.title()` restricted to the inputs produced below: the first
letter of each space-separated word is upper-cased, the rest lower-cased. -/
def pyTitleWord (w : String) : String :=
  match w.toList with
  | [] => ""
  | c :: rest => String.mk (c.toUpper :: rest.map Char.toLower)

/-- Model of `get_field_display_name` (`timeline_utils.py`): table lookup with an
underscore-to-space, title-cased fallback. -/
def get_field_display_name (field_name : String) : String :=
  match (FIELD_DISPLAY_NAMES.find? (fun p => p.1 = field_name)) with
  | some p => p.2
  | none =>
      String.intercalate " "
        ((splitChar ' ' (field_name.toList.map
            (fun c => if c = '_' then ' ' else c))).map
          (fun w => pyTitleWord (String.mk w)))

/-! ## Claims about the forms and models -/

/-- C1: on a Maintenance (and Outage) form save of a record with no prior
identity and a supplied original timezone that resolves, the start and end
(and ETR) instants are reinterpreted as expressed in the original timezone
and converted to the system timezone; on a save of a record that already
has an identity, no conversion is applied and the stored values are
unchanged even if the original timezone was changed. -/
theorem tz_conversion_on_create_only (env : TzEnv) (m : MaintenanceInstance)
    (o : OutageInstance) (off : Int) :
    (m.pk = none → m.original_timezone ≠ "" →
      env.zoneInfo m.original_timezone = some off →
      (MaintenanceForm.save env m).start
          = ⟨m.start.wall - off + env.systemOffset, some env.systemOffset⟩ ∧
      (MaintenanceForm.save env m).«end»
          = ⟨m.«end».wall - off + env.systemOffset, some env.systemOffset⟩) ∧
    (o.pk = none → o.original_timezone ≠ "" →
      env.zoneInfo o.original_timezone = some off →
      (OutageForm.save env o).start
          = ⟨o.start.wall - off + env.systemOffset, some env.systemOffset⟩ ∧
      (OutageForm.save env o).«end»
          = o.«end».map
              (fun d => ⟨d.wall - off + env.systemOffset, some env.systemOffset⟩) ∧
      (OutageForm.save env o).estimated_time_to_repair
          = o.estimated_time_to_repair.map
              (fun d => ⟨d.wall - off + env.systemOffset, some env.systemOffset⟩)) ∧
    (m.pk ≠ none → MaintenanceForm.save env m = m) ∧
    (o.pk ≠ none → OutageForm.save env o = o) := by
  refine ⟨?_, ?_, ?_, ?_⟩
  · intro hpk hne hzi
    simp [MaintenanceForm.save, hpk, hne, hzi, PyDateTime.replaceTz,
      PyDateTime.astimezone]
  · intro hpk hne hzi
    simp [OutageForm.save, hpk, hne, hzi, PyDateTime.replaceTz,
      PyDateTime.astimezone]
  · intro hpk
    simp [MaintenanceForm.save, hpk]
  · intro hpk
    simp [OutageForm.save, hpk]

def c1Env : TzEnv :=
  { zoneInfo := fun s =>
      if s = "America/New_York" then some (-300)
      else if s = "UTC" then some 0
      else none,
    systemOffset := 0 }

/-- Wall-clock 600 = 2024-01-01T10:00 in minutes from local midnight. -/
def c1Maint : MaintenanceInstance :=
  { pk := none, start := ⟨600, none⟩, «end» := ⟨660, none⟩,
    original_timezone := "America/New_York", status := "CONFIRMED" }

/-- The persisted record from `c1Maint` later edited with a changed
original timezone. -/
def c1MaintEdit : MaintenanceInstance :=
  { pk := some 1, start := ⟨900, some 0⟩, «end» := ⟨960, some 0⟩,
    original_timezone := "UTC", status := "CONFIRMED" }

def c1Outage : OutageInstance :=
  { pk := none, start := ⟨600, none⟩, «end» := some ⟨660, none⟩,
    estimated_time_to_repair := some ⟨720, none⟩,
    original_timezone := "America/New_York", status := "REPORTED" }

theorem tz_conversion_on_create_only_witness :
    c1Maint.pk = none ∧ c1Maint.original_timezone ≠ "" ∧
    c1Env.zoneInfo c1Maint.original_timezone = some (-300) ∧
    (MaintenanceForm.save c1Env c1Maint).start = ⟨900, some 0⟩ ∧
    (OutageForm.save c1Env c1Outage).estimated_time_to_repair
        = some ⟨1020, some 0⟩ ∧
    c1MaintEdit.pk ≠ none ∧
    (MaintenanceForm.save c1Env c1MaintEdit).start = c1MaintEdit.start := by
  refine ⟨rfl, by decide, by decide, ?_, ?_, by decide, ?_⟩
  · have h := (tz_conversion_on_create_only c1Env c1Maint c1Outage (-300)).1
      rfl (by decide) (by decide)
    rw [h.1]; decide
  · have h := (tz_conversion_on_create_only c1Env c1Maint c1Outage (-300)).2.1
      rfl (by decide) (by decide)
    rw [h.2.2]; decide
  · have h := (tz_conversion_on_create_only c1Env c1MaintEdit c1Outage (-300)).2.2.1
      (by decide)
    rw [h]

/-- C2: an Impact whose resolved parent event has status COMPLETED,
CANCELLED or RESOLVED fails every validated save attempt: `Impact.clean`
returns a validation error. -/
theorem impact_locked_after_event_completion (i : Impact)
    (allowed : List String) (ev : EventObj) (hev : i.event = some ev)
    (hst : ev.status ∈ ["COMPLETED", "CANCELLED", "RESOLVED"]) :
    ∃ e, i.clean allowed = .error e := by
  have hstatus : i.clean_event_status
      = .error ⟨none, "You cannot alter an impact once the event has completed."⟩ := by
    simp [Impact.clean_event_status, hev, hst]
  unfold Impact.clean
  cases h1 : i.clean_target allowed with
  | error e => exact ⟨e, rfl⟩
  | ok u =>
      cases h2 : i.clean_event_type with
      | error e => exact ⟨e, rfl⟩
      | ok v => exact ⟨_, hstatus⟩

def c2Impact : Impact :=
  { event_content_type := some ⟨"vendor_notification", "maintenance"⟩,
    event_object_id := 7,
    event := some ⟨"COMPLETED"⟩,
    target_content_type := some ⟨"circuits", "circuit"⟩,
    target_object_id := 3,
    impact := some "OUTAGE" }

theorem impact_locked_after_event_completion_witness :
    c2Impact.event = some ⟨"COMPLETED"⟩ ∧
    ("COMPLETED" : String) ∈ ["COMPLETED", "CANCELLED", "RESOLVED"] ∧
    ∃ e, c2Impact.clean ["circuits.Circuit"] = .error e :=
  ⟨rfl, by decide,
    impact_locked_after_event_completion c2Impact ["circuits.Circuit"]
      ⟨"COMPLETED"⟩ rfl (by decide)⟩

/-- C3: saving an Outage with status RESOLVED and no end timestamp fails
validation with an error on the `end` field, and a validated Outage with
status RESOLVED always has an end timestamp. -/
theorem outage_resolved_requires_end (o : OutageInstance) :
    (o.status = "RESOLVED" → o.«end» = none →
      o.clean = .error
        ⟨some "end", "End time is required when marking outage as resolved"⟩) ∧
    (∀ u, o.clean = .ok u → o.status = "RESOLVED" → o.«end» ≠ none) := by
  constructor
  · intro hs he
    simp [OutageInstance.clean, hs, he]
  · intro u hok hs he
    simp [OutageInstance.clean, hs, he] at hok

def c3Outage : OutageInstance :=
  { pk := some 4, start := ⟨0, some 0⟩, «end» := none,
    estimated_time_to_repair := none, original_timezone := "",
    status := "RESOLVED" }

theorem outage_resolved_requires_end_witness :
    c3Outage.status = "RESOLVED" ∧ c3Outage.«end» = none ∧
    c3Outage.clean = .error
      ⟨some "end", "End time is required when marking outage as resolved"⟩ :=
  ⟨rfl, rfl, (outage_resolved_requires_end c3Outage).1 rfl rfl⟩

/-- C4: Impact validation fails with an error on `target_content_type`
whenever the target content type is set and its `app_label.model` string is
not in the allow-list (case-insensitively); conversely a validated Impact
with a set target content type has its type string in the allow-list. -/
theorem impact_target_allowlist_enforced (i : Impact) (allowed : List String) :
    (∀ ct, i.target_content_type = some ct →
      pyLower (ct.app_label ++ "." ++ ct.model) ∉ allowed.map pyLower →
      ∃ e, i.clean allowed = .error e ∧ e.field = some "target_content_type") ∧
    (∀ ct u, i.target_content_type = some ct → i.clean allowed = .ok u →
      pyLower (ct.app_label ++ "." ++ ct.model) ∈ allowed.map pyLower) := by
  constructor
  · intro ct hct hnot
    have htarget : ∃ msg, i.clean_target allowed
        = .error ⟨some "target_content_type", msg⟩ := by
      simp [Impact.clean_target, hct, hnot]
    obtain ⟨msg, htarget⟩ := htarget
    have hclean : i.clean allowed = .error ⟨some "target_content_type", msg⟩ := by
      unfold Impact.clean
      rw [htarget]
    exact ⟨_, hclean, rfl⟩
  · intro ct u hct hok
    by_contra hnot
    have htarget : ∃ e, i.clean_target allowed = .error e := by
      simp [Impact.clean_target, hct, hnot]
    obtain ⟨e, he⟩ := htarget
    unfold Impact.clean at hok
    rw [he] at hok
    exact Except.noConfusion hok

def c4Impact : Impact :=
  { event_content_type := some ⟨"vendor_notification", "outage"⟩,
    event_object_id := 2,
    event := some ⟨"REPORTED"⟩,
    target_content_type := some ⟨"dcim", "device"⟩,
    target_object_id := 9,
    impact := none }

theorem impact_target_allowlist_enforced_witness :
    c4Impact.target_content_type = some ⟨"dcim", "device"⟩ ∧
    pyLower ("dcim" ++ "." ++ "device")
        ∉ ["circuits.Circuit", "dcim.Site"].map pyLower ∧
    ∃ e, c4Impact.clean ["circuits.Circuit", "dcim.Site"] = .error e ∧
      e.field = some "target_content_type" :=
  ⟨rfl, by decide,
    (impact_target_allowlist_enforced c4Impact
        ["circuits.Circuit", "dcim.Site"]).1
      ⟨"dcim", "device"⟩ rfl (by decide)⟩

/-! ## Claims about the iCal feed -/

/-- C5: the effective `past_days` equals the supplied integer when it lies
in [0, 365], and equals the configured default when the supplied value is
negative, above 365, or not parseable as an integer. -/
theorem past_days_effective (s : String) (d : Int) :
    (∀ n : Int, pyInt s = some n → 0 ≤ n → n ≤ 365 →
      effective_past_days (some s) d = n) ∧
    (∀ n : Int, pyInt s = some n → (n < 0 ∨ 365 < n) →
      effective_past_days (some s) d = d) ∧
    (pyInt s = none → effective_past_days (some s) d = d) := by
  refine ⟨?_, ?_, ?_⟩
  · intro n hp h0 h365
    simp only [effective_past_days, hp]
    rw [if_neg (show ¬n < 0 by omega)]
    exact if_neg (by omega)
  · intro n hp hbad
    simp only [effective_past_days, hp]
    rcases hbad with hneg | hbig
    · rw [if_pos hneg]
      split <;> rfl
    · rw [if_neg (show ¬n < 0 by omega)]
      exact if_pos (by omega)
  · intro hp
    simp [effective_past_days, hp]

theorem past_days_effective_witness :
    pyInt "400" = some 400 ∧ ((400 : Int) < 0 ∨ (365 : Int) < 400) ∧
    effective_past_days (some "400") 30 = 30 ∧
    pyInt "10" = some 10 ∧
    effective_past_days (some "10") 30 = 10 ∧
    pyInt "abc" = none ∧
    effective_past_days (some "abc") 30 = 30 :=
  ⟨by decide, by decide,
    (past_days_effective "400" 30).2.1 400 (by decide) (by decide),
    by decide,
    (past_days_effective "10" 30).1 10 (by decide) (by decide) (by decide),
    by decide,
    (past_days_effective "abc" 30).2.2 (by decide)⟩

/-- The cache-validity tag `get` computes for a result set, as a function
of the environment, the request and the rows the query returned. -/
def response_etag (env : ICalEnv) (req : ICalRequest)
    (rows : List MaintenanceRow) : String :=
  calculate_etag rows.length (latest_last_updated rows)
    (parse_query_params env req)

def c6User : User := ⟨1, true, true⟩

def c6Env : ICalEnv :=
  { validate_token := fun _ => none, login_required := true,
    ical_past_days_default := 30, ical_cache_max_age := 900,
    providers := [], maintenances := [], now := 0 }

def c6Req : ICalRequest :=
  { token_param := none, header_auth := none, session_user := c6User,
    if_none_match := none, has_if_modified_since := false,
    past_days_param := none, provider_param := none,
    provider_id_param := none, status_param := none }

/-- C6 counterexample: an authenticated, permitted request over an empty
result set with no conditional headers gets a 200 whose Last-Modified
header is absent (`none`), against the claim that the body response always
carries a Last-Modified header. -/
theorem ical_ok_without_last_modified :
    ical_get c6Env c6Req
      = .okResp "" "public, max-age=900"
          (response_etag c6Env c6Req []) none := by
  rfl

/-- C6 (amended): if If-None-Match equals the computed tag, the response is
304 with no body; otherwise if the result set has a latest last-modified
timestamp and an If-Modified-Since header is present, the response is 304;
otherwise the calendar body is returned with `Cache-Control: public,
max-age=<configured>`, the computed ETag, and a Last-Modified header
exactly when the result set has a latest last-modified timestamp. -/
theorem ical_conditional_caching (env : ICalEnv) (req : ICalRequest)
    (user : User) (rows : List MaintenanceRow)
    (hauth : authenticate_request env req = some user)
    (hperm : user.has_view_maintenance_perm = true)
    (hqs : build_queryset env (parse_query_params env req) = .ok rows) :
    (req.if_none_match = some (response_etag env req rows) →
      ical_get env req = .not_modified (response_etag env req rows) none) ∧
    (req.if_none_match ≠ some (response_etag env req rows) →
      (latest_last_updated rows).isSome = true →
      req.has_if_modified_since = true →
      ical_get env req
        = .not_modified (response_etag env req rows)
            (latest_last_updated rows)) ∧
    (req.if_none_match ≠ some (response_etag env req rows) →
      ((latest_last_updated rows).isSome && req.has_if_modified_since) = false →
      ical_get env req
        = .okResp (generate_maintenance_ical rows)
            ("public, max-age=" ++ toString env.ical_cache_max_age)
            (response_etag env req rows) (latest_last_updated rows)) := by
  have hg : ical_get env req =
      (if req.if_none_match = some (response_etag env req rows) then
        .not_modified (response_etag env req rows) none
      else if (latest_last_updated rows).isSome && req.has_if_modified_since then
        .not_modified (response_etag env req rows) (latest_last_updated rows)
      else
        .okResp (generate_maintenance_ical rows)
          ("public, max-age=" ++ toString env.ical_cache_max_age)
          (response_etag env req rows) (latest_last_updated rows)) := by
    unfold ical_get
    rw [hauth]
    simp only [hperm, Bool.not_true, Bool.false_eq_true, if_false]
    rw [hqs]
    rfl
  refine ⟨?_, ?_, ?_⟩
  · intro h
    rw [hg, if_pos h]
  · intro h hsome hims
    rw [hg, if_neg h, if_pos (by rw [hsome, hims]; rfl)]
  · intro h hno
    rw [hg, if_neg h, if_neg (by simp [hno])]

def c6wRow : MaintenanceRow :=
  { pk := 1, start := 0, provider_id := 1, status := "CONFIRMED",
    last_updated := 100 }

def c6wEnv : ICalEnv := { c6Env with maintenances := [c6wRow] }

def c6wReq : ICalRequest := { c6Req with has_if_modified_since := true }

theorem ical_conditional_caching_witness :
    authenticate_request c6wEnv c6wReq = some c6User ∧
    c6User.has_view_maintenance_perm = true ∧
    build_queryset c6wEnv (parse_query_params c6wEnv c6wReq) = .ok [c6wRow] ∧
    c6wReq.if_none_match ≠ some (response_etag c6wEnv c6wReq [c6wRow]) ∧
    (latest_last_updated [c6wRow]).isSome = true ∧
    c6wReq.has_if_modified_since = true ∧
    ical_get c6wEnv c6wReq
      = .not_modified (response_etag c6wEnv c6wReq [c6wRow]) (some 100) :=
  ⟨rfl, rfl, rfl, fun h => Option.noConfusion h, rfl, rfl,
    (ical_conditional_caching c6wEnv c6wReq c6User [c6wRow] rfl rfl rfl).2.1
      (fun h => Option.noConfusion h) rfl rfl⟩

/-- The authentication resolution order exactly as the spec words it: (1) a
token supplied as a query parameter, (2) a token Authorization header,
(3) the existing session identity, (4) anonymous only when the login
requirement is disabled — each consulted only when the previous one yields
no user.  Stated for comparison with `authenticate_request`. -/
def authenticate_spec_order (env : ICalEnv) (req : ICalRequest) : Option User :=
  match req.token_param with
  | some t => env.validate_token t
  | none =>
      match req.header_auth with
      | some u => some u
      | none =>
          if req.session_user.is_authenticated then some req.session_user
          else if !env.login_required then some req.session_user
          else none

def c7HeaderUser : User := ⟨10, true, true⟩

def c7SessionUser : User := ⟨20, true, true⟩

def c7Env : ICalEnv :=
  { validate_token := fun _ => none, login_required := true,
    ical_past_days_default := 30, ical_cache_max_age := 900,
    providers := [], maintenances := [], now := 0 }

def c7Req : ICalRequest :=
  { token_param := none, header_auth := some c7HeaderUser,
    session_user := c7SessionUser, if_none_match := none,
    has_if_modified_since := false, past_days_param := none,
    provider_param := none, provider_id_param := none, status_param := none }

/-- C7 counterexample: with no query token, an Authorization header
resolving to one user and an authenticated session belonging to another,
the code resolves to the session identity, while the claimed strict
(1)-(2)-(3)-(4) order would resolve to the header identity. -/
theorem ical_auth_order_counterexample :
    authenticate_request c7Env c7Req = some c7SessionUser ∧
    authenticate_spec_order c7Env c7Req = some c7HeaderUser ∧
    c7SessionUser ≠ c7HeaderUser :=
  ⟨rfl, rfl, by decide⟩

/-- C7 (amended): a non-empty token query parameter is authoritative; with
none, the Authorization header is consulted only when the session is not
authenticated, an authenticated session identity winning otherwise; with
neither, anonymous access is allowed exactly when the login requirement is
disabled; a `None` resolution or a user without the Maintenance view
permission produces a 403. -/
theorem ical_auth_resolution (env : ICalEnv) (req : ICalRequest) :
    (∀ t, req.token_param = some t → t ≠ "" →
      authenticate_request env req = env.validate_token t) ∧
    ((req.token_param = none ∨ req.token_param = some "") →
      req.session_user.is_authenticated = false →
      ∀ u, req.header_auth = some u →
      authenticate_request env req = some u) ∧
    ((req.token_param = none ∨ req.token_param = some "") →
      req.session_user.is_authenticated = true →
      authenticate_request env req = some req.session_user) ∧
    ((req.token_param = none ∨ req.token_param = some "") →
      req.session_user.is_authenticated = false → req.header_auth = none →
      env.login_required = false →
      authenticate_request env req = some req.session_user) ∧
    ((req.token_param = none ∨ req.token_param = some "") →
      req.session_user.is_authenticated = false → req.header_auth = none →
      env.login_required = true →
      authenticate_request env req = none) ∧
    (authenticate_request env req = none →
      ical_get env req = .forbidden "Authentication required") ∧
    (∀ u, authenticate_request env req = some u →
      u.has_view_maintenance_perm = false →
      ical_get env req = .forbidden "Permission denied") := by
  have hfb : ∀ hcase : req.token_param = none ∨ req.token_param = some "",
      authenticate_request env req = authenticate_fallback env req := by
    intro hcase
    rcases hcase with h | h <;> simp [authenticate_request, h]
  refine ⟨?_, ?_, ?_, ?_, ?_, ?_, ?_⟩
  · intro t ht hne
    simp [authenticate_request, ht, hne]
  · intro hcase hsess u hu
    rw [hfb hcase]
    simp [authenticate_fallback, hsess, hu]
  · intro hcase hsess
    rw [hfb hcase]
    simp [authenticate_fallback, hsess]
  · intro hcase hsess hhdr hlr
    rw [hfb hcase]
    simp [authenticate_fallback, hsess, hhdr, hlr]
  · intro hcase hsess hhdr hlr
    rw [hfb hcase]
    simp [authenticate_fallback, hsess, hhdr, hlr]
  · intro hnone
    unfold ical_get
    rw [hnone]
  · intro u hu hperm
    unfold ical_get
    rw [hu]
    simp [hperm]

theorem ical_auth_resolution_witness :
    (c7Req.token_param = none ∨ c7Req.token_param = some "") ∧
    c7Req.session_user.is_authenticated = true ∧
    authenticate_request c7Env c7Req = some c7Req.session_user :=
  ⟨Or.inl rfl, rfl,
    (ical_auth_resolution c7Env c7Req).2.2.1 (Or.inl rfl) rfl⟩

def c8User : User := ⟨1, true, true⟩

def c8Env : ICalEnv :=
  { validate_token := fun _ => none, login_required := false,
    ical_past_days_default := 30, ical_cache_max_age := 900,
    providers := [(1, "acme")], maintenances := [], now := 0 }

def c8Req : ICalRequest :=
  { token_param := none, header_auth := none, session_user := c8User,
    if_none_match := none, has_if_modified_since := false,
    past_days_param := none, provider_param := some "nonexistent",
    provider_id_param := none, status_param := none }

def c8ReqPastDays : ICalRequest :=
  { c8Req with provider_param := none, past_days_param := some "400" }

/-- C8: no request to the iCal endpoint produces a 400 response.  The
`try/except ValueError` that would produce one wraps only
`_parse_query_params`, which never raises; the `ValueError` for an unknown
provider slug (and an unparseable provider id) is raised by
`_build_queryset` outside it and escapes the handler, while an
out-of-range `past_days` is swallowed and replaced by the default, giving
a normal 200. -/
theorem ical_never_bad_request (env : ICalEnv) (req : ICalRequest) :
    (ical_get env req).is_bad_request = false ∧
    ical_get c8Env c8Req = .unhandled_error "Provider not found: nonexistent" ∧
    ical_get c8Env c8ReqPastDays
      = .okResp "" "public, max-age=900"
          (response_etag c8Env c8ReqPastDays []) none := by
  refine ⟨?_, rfl, rfl⟩
  unfold ical_get
  cases authenticate_request env req with
  | none => rfl
  | some user =>
      dsimp only
      split
      · rfl
      · cases build_queryset env (parse_query_params env req) with
        | error e => rfl
        | ok rows =>
            dsimp only
            split
            · rfl
            · split <;> rfl

def c9Row1 : MaintenanceRow :=
  { pk := 1, start := 0, provider_id := 1, status := "TENTATIVE",
    last_updated := 10 }

def c9Row2 : MaintenanceRow :=
  { pk := 2, start := 0, provider_id := 1, status := "COMPLETED",
    last_updated := 20 }

def c9Env : ICalEnv :=
  { validate_token := fun _ => none, login_required := false,
    ical_past_days_default := 30, ical_cache_max_age := 900,
    providers := [(1, "acme")], maintenances := [c9Row1, c9Row2], now := 0 }

def c9Params : ICalParams :=
  { past_days := 30, provider := none, provider_id := none,
    status := some "bogus, pending" }

/-- C9: when every entry of the supplied status parameter is unrecognized
after trimming, upper-casing and filtering against the Maintenance status
enum, no status filter is applied at all: the query result equals that of
the same request without a status parameter. -/
theorem ical_unrecognized_statuses_ignored (env : ICalEnv)
    (params : ICalParams) (s : String) (hs : params.status = some s)
    (hnone : ((pySplitComma s).map strip_upper).filter
        (fun x => x ∈ MaintenanceTypeChoices.valid) = []) :
    build_queryset env params
      = build_queryset env { params with status := none } := by
  unfold build_queryset
  have hprov : provider_filtered env { params with status := none }
      = provider_filtered env params := rfl
  rw [hprov]
  cases provider_filtered env params with
  | error e => rfl
  | ok qs => simp [hs, hnone]

theorem ical_unrecognized_statuses_ignored_witness :
    c9Params.status = some "bogus, pending" ∧
    ((pySplitComma "bogus, pending").map strip_upper).filter
        (fun x => x ∈ MaintenanceTypeChoices.valid) = [] ∧
    build_queryset c9Env c9Params
      = build_queryset c9Env { c9Params with status := none } ∧
    build_queryset c9Env c9Params = .ok [c9Row1, c9Row2] := by
  refine ⟨rfl, by decide, ?_, rfl⟩
  exact ical_unrecognized_statuses_ignored c9Env c9Params
    "bogus, pending" rfl (by decide)

def c10SessionUser : User := ⟨5, true, true⟩

def c10Env : ICalEnv :=
  { validate_token := fun _ => none, login_required := true,
    ical_past_days_default := 30, ical_cache_max_age := 900,
    providers := [], maintenances := [], now := 0 }

def c10Req : ICalRequest :=
  { token_param := some "", header_auth := none,
    session_user := c10SessionUser, if_none_match := none,
    has_if_modified_since := false, past_days_param := none,
    provider_param := none, provider_id_param := none, status_param := none }

/-- C10 counterexample: a request carrying a token query parameter whose
(empty) value is not a valid token is nevertheless authenticated through
the session, and the response is not a 403: the empty string is falsy in
the code, so the parameter is treated as absent. -/
theorem ical_empty_token_falls_back :
    c10Env.validate_token "" = none ∧
    c10Req.token_param = some "" ∧
    authenticate_request c10Env c10Req = some c10SessionUser ∧
    (ical_get c10Env c10Req).is_forbidden = false :=
  ⟨rfl, rfl, rfl, rfl⟩

/-- C10 (amended): a request carrying a NON-EMPTY token query parameter
whose value is not a valid token resolves to no user and gets a 403, with
no fallback to the Authorization header, the session identity, or
anonymous access — even when the requester has a valid session or the
login requirement is disabled; an empty token value falls through. -/
theorem ical_invalid_token_no_fallback (env : ICalEnv) (req : ICalRequest)
    (t : String) (ht : req.token_param = some t) (hne : t ≠ "")
    (hbad : env.validate_token t = none) :
    authenticate_request env req = none ∧
    ical_get env req = .forbidden "Authentication required" := by
  have hauth : authenticate_request env req = none := by
    unfold authenticate_request
    rw [ht]
    dsimp only
    rw [if_neg hne]
    exact hbad
  refine ⟨hauth, ?_⟩
  unfold ical_get
  rw [hauth]

def c10wEnv : ICalEnv := { c10Env with login_required := false }

def c10wReq : ICalRequest := { c10Req with token_param := some "badtoken" }

theorem ical_invalid_token_no_fallback_witness :
    c10wReq.token_param = some "badtoken" ∧ "badtoken" ≠ "" ∧
    c10wEnv.validate_token "badtoken" = none ∧
    c10wReq.session_user.is_authenticated = true ∧
    c10wEnv.login_required = false ∧
    ical_get c10wEnv c10wReq = .forbidden "Authentication required" :=
  ⟨rfl, by decide, rfl, rfl, rfl,
    (ical_invalid_token_no_fallback c10wEnv c10wReq "badtoken" rfl
      (by decide) rfl).2⟩

end VendorNotification
